import Mathlib

/-
Shallow embedding of cemc_takler_util (src/cemc_takler_util/__init__.py).

The module translates a declarative runtime and scheduling configuration
into key/value parameters attached to nodes of an external workflow engine,
and provides a dynamic module loader.  Python dictionaries are modelled as
ordered association lists; Python values flowing into the dictionaries are
strings, integers or None, modelled by the type PValue.  Fallible functions
return Except PyError; an error result carries no node, which models the
fact that a raised exception prevents any add_parameter or add_repeat call.
-/

namespace CemcTaklerUtil

/-- A Python value as it appears in the parameter dictionaries of this
module: a string, an integer, or None. -/
inductive PValue where
  | str : String → PValue
  | int : Int → PValue
  | null : PValue
deriving DecidableEq, Repr

/-- An ordered mapping from string keys to values, as produced by the
builder functions (Python dict with insertion order). -/
abbrev ParamSet := List (String × PValue)

/-- External RepeatDate value object: RepeatDate(variable_name, start, end)
from takler.core, constructed with two formatted date strings. -/
structure RepeatDate where
  variable_name : String
  start_date : String
  end_date : String
deriving DecidableEq, Repr

/-- External Node object (takler.core.node.Node), reduced to the state the
functions of this module can observe and mutate: the list of parameter sets
passed to add_parameter and the list of repeat objects passed to add_repeat,
in call order. -/
structure Node where
  parameters : List ParamSet
  repeats : List RepeatDate
deriving DecidableEq, Repr

/-- node.add_parameter(params): records one more attached parameter set. -/
def add_parameter (node : Node) (params : ParamSet) : Node :=
  { node with parameters := node.parameters ++ [params] }

/-- node.add_repeat(r): records one more attached repeat object. -/
def add_repeat (node : Node) (r : RepeatDate) : Node :=
  { node with repeats := node.repeats ++ [r] }

/-- RuntimeConfig record.  The pydantic model declares
runtime_type: Literal["shell", "slurm"] and job_type: Literal["serial",
"parallel"]; the body of set_runtime only ever sees strings, and its own
else branches guard against other values, so the embedding keeps plain
strings and exposes the Literal constraint as the predicate
RuntimeConfig.valid below. -/
structure RuntimeConfig where
  runtime_type : String
  job_type : String
  job_class : Option String
  nodes : Option Int
  tasks_per_node : Option Int
  workload_key : Option String
deriving DecidableEq, Repr

/-- The pydantic Literal constraints on RuntimeConfig construction. -/
def RuntimeConfig.valid (c : RuntimeConfig) : Prop :=
  (c.runtime_type = "shell" ∨ c.runtime_type = "slurm") ∧
  (c.job_type = "serial" ∨ c.job_type = "parallel")

instance (c : RuntimeConfig) : Decidable c.valid := by
  unfold RuntimeConfig.valid; infer_instance

/-- Module constant slurm_job_cmd. -/
def slurm_job_cmd : String := "sbatch {{ TAKLER_JOB }}"

/-- Module constant slurm_kill_cmd. -/
def slurm_kill_cmd : String := "scancel {{ TAKLER_RID }}"

/-- Modelled from the spec: DEFAULT_TAKLER_SHELL_JOB_CMD is an opaque
string constant imported from the external takler.tasks.shell.constant
module (not part of this repository); the spec treats it as a pass-through
constant, so its concrete text is irrelevant to every claim. -/
def DEFAULT_TAKLER_SHELL_JOB_CMD : String := "DEFAULT_TAKLER_SHELL_JOB_CMD"

/-- Modelled from the spec: DEFAULT_TAKLER_SHELL_KILL_CMD is the matching
opaque kill-command constant from the external takler shell module. -/
def DEFAULT_TAKLER_SHELL_KILL_CMD : String := "DEFAULT_TAKLER_SHELL_KILL_CMD"

/-- Injection of an optional Python string into a dictionary value:
a present string stays a string, None becomes the null value. -/
def optStr : Option String → PValue
  | some s => PValue.str s
  | none => PValue.null

/-- Injection of an optional Python integer into a dictionary value. -/
def optInt : Option Int → PValue
  | some n => PValue.int n
  | none => PValue.null

/-- shell_job(): the fixed two-entry shell parameter dictionary. -/
def shell_job : ParamSet :=
  [("TAKLER_SHELL_JOB_CMD", PValue.str DEFAULT_TAKLER_SHELL_JOB_CMD),
   ("TAKLER_SHELL_KILL_CMD", PValue.str DEFAULT_TAKLER_SHELL_KILL_CMD)]

/-- slurm_serial_job(class_name="serial", workload_key=None).  The Python
signature annotates class_name as str with default "serial", but the call
site in set_runtime always passes the (possibly None) job_class explicitly,
so the dynamic domain of class_name is Option String and the default never
applies there; the embedding therefore takes the arguments explicitly.
The body builds the three fixed entries and appends WCKEY only when
workload_key is not None. -/
def slurm_serial_job (class_name : Option String) (workload_key : Option String) :
    ParamSet :=
  let params : ParamSet :=
    [("TAKLER_SHELL_JOB_CMD", PValue.str slurm_job_cmd),
     ("TAKLER_SHELL_KILL_CMD", PValue.str slurm_kill_cmd),
     ("PARTITION", optStr class_name)]
  match workload_key with
  | some w => params ++ [("WCKEY", PValue.str w)]
  | none => params

/-- slurm_parallel_job(nodes, tasks_per_node=32, class_name="normal",
workload_key=None).  As with slurm_serial_job, the only call site forwards
the optional config fields explicitly, so every argument is optional in
the dynamic domain and the Python defaults 32 and "normal" are bypassed
there. -/
def slurm_parallel_job (nodes : Option Int) (tasks_per_node : Option Int)
    (class_name : Option String) (workload_key : Option String) : ParamSet :=
  let params : ParamSet :=
    [("TAKLER_SHELL_JOB_CMD", PValue.str slurm_job_cmd),
     ("TAKLER_SHELL_KILL_CMD", PValue.str slurm_kill_cmd),
     ("PARTITION", optStr class_name),
     ("NODES", optInt nodes),
     ("TASKS_PER_NODE", optInt tasks_per_node)]
  match workload_key with
  | some w => params ++ [("WCKEY", PValue.str w)]
  | none => params

/-- Python exceptions raised by this module: ValueError for unsupported
configuration values, AttributeError for attribute access on None. -/
inductive PyError where
  | valueError : String → PyError
  | attributeError : String → PyError
deriving DecidableEq, Repr

/-- set_runtime(node, runtime_config): dispatch on runtime_type and
job_type, attach exactly one parameter set, or raise ValueError.  The
slurm branches forward job_class / nodes / tasks_per_node / workload_key
exactly as the source does: as explicit (possibly None) keyword
arguments. -/
def set_runtime (node : Node) (runtime_config : RuntimeConfig) :
    Except PyError Node :=
  let runtime_type := runtime_config.runtime_type
  if runtime_type = "shell" then
    Except.ok (add_parameter node shell_job)
  else if runtime_type = "slurm" then
    let job_type := runtime_config.job_type
    if job_type = "serial" then
      Except.ok (add_parameter node
        (slurm_serial_job runtime_config.job_class runtime_config.workload_key))
    else if job_type = "parallel" then
      Except.ok (add_parameter node
        (slurm_parallel_job runtime_config.nodes runtime_config.tasks_per_node
          runtime_config.job_class runtime_config.workload_key))
    else
      Except.error (PyError.valueError
        ("job type for slurm is not supported: " ++ job_type))
  else
    Except.error (PyError.valueError
      ("runtime type is not supported: " ++ runtime_type))

/-- A Python datetime.date: calendar date with 1 ≤ year ≤ 9999,
1 ≤ month ≤ 12, 1 ≤ day ≤ 31 enforced at construction by datetime. -/
structure Date where
  year : Nat
  month : Nat
  day : Nat
deriving DecidableEq, Repr

/-- The decimal digit character for n % 10. -/
def digitChar (n : Nat) : Char := Char.ofNat (48 + n % 10)

/-- Fixed-width zero-padded four-digit decimal rendering, the behaviour of
strftime %Y on the datetime.date year domain 1..9999. -/
def fmt4 (n : Nat) : String :=
  String.mk [digitChar (n / 1000), digitChar (n / 100), digitChar (n / 10), digitChar n]

/-- Fixed-width zero-padded two-digit decimal rendering, the behaviour of
strftime %m and %d on month/day domains. -/
def fmt2 (n : Nat) : String :=
  String.mk [digitChar (n / 10), digitChar n]

/-- date.strftime("%Y%m%d"): zero-padded YYYYMMDD. -/
def strftimeYmd (d : Date) : String :=
  fmt4 d.year ++ fmt2 d.month ++ fmt2 d.day

/-- SchedulingConfig record: scheduling_type is Literal["RepeatDate",
"RepeatDay"] in pydantic (kept as a string for the same reason as in
RuntimeConfig); start_date and end_date are Optional with default None,
so the record is constructible with either date missing. -/
structure SchedulingConfig where
  scheduling_type : String
  start_date : Option Date
  end_date : Option Date
deriving DecidableEq, Repr

/-- set_scheduling(node, scheduling_config, repeat_date_variable_name
= "TAKLER_DATE").  The RepeatDate branch evaluates
scheduling_config.start_date.strftime("%Y%m%d") first, then the same for
end_date; if either field is None the attribute access on None raises
AttributeError before add_repeat is reached.  The RepeatDay branch always
raises, and any other value raises the unsupported-type ValueError. -/
def set_scheduling (node : Node) (scheduling_config : SchedulingConfig)
    (repeat_date_variable_name : String) : Except PyError Node :=
  let scheduling_type := scheduling_config.scheduling_type
  if scheduling_type = "RepeatDate" then
    match scheduling_config.start_date with
    | none => Except.error (PyError.attributeError
        "NoneType object has no attribute strftime")
    | some sd =>
      match scheduling_config.end_date with
      | none => Except.error (PyError.attributeError
          "NoneType object has no attribute strftime")
      | some ed =>
        Except.ok (add_repeat node
          (RepeatDate.mk repeat_date_variable_name (strftimeYmd sd) (strftimeYmd ed)))
  else if scheduling_type = "RepeatDay" then
    Except.error (PyError.valueError "RepeatDay is not implemented")
  else
    Except.error (PyError.valueError
      ("scheduling type is not supported: " ++ scheduling_type))

/-- A loaded Python module, identified by the source text the loader
executed (importlib.util creates the module from the file content at the
given path). -/
structure ModuleType where
  source : String
deriving DecidableEq, Repr

/-- The process-wide module registry sys.modules, as a name-to-module
association list with most recent binding first. -/
abbrev ModuleRegistry := List (String × ModuleType)

/-- sys.modules[name] = m: dictionary assignment, overwriting any previous
binding of name. -/
def registrySet (registry : ModuleRegistry) (name : String) (m : ModuleType) :
    ModuleRegistry :=
  (name, m) :: registry.filter (fun kv => kv.1 ≠ name)

/-- sys.modules lookup. -/
def registryGet (registry : ModuleRegistry) (name : String) : Option ModuleType :=
  (registry.find? (fun kv => kv.1 = name)).map (fun kv => kv.2)

/-- load_module_from_file_path(module_name, file_path).  The filesystem is
passed explicitly as a map from paths to source text.  The body rebinds
module_name to the literal "suite_config" before any use (exactly as the
source does), creates the module from the file, stores it in sys.modules
under that fixed name, executes it and returns it together with the
updated registry. -/
def load_module_from_file_path (fileSystem : String → String)
    (module_name : String) (file_path : String) (sys_modules : ModuleRegistry) :
    ModuleType × ModuleRegistry :=
  let module_name := "suite_config"
  let config_module : ModuleType := ModuleType.mk (fileSystem file_path)
  let sys_modules := registrySet sys_modules module_name config_module
  (config_module, sys_modules)

/-- The empty node used as a concrete mutation target in instances. -/
def emptyNode : Node := Node.mk [] []

/-- C5: for every RuntimeConfig with runtime_type = "shell", set_runtime
attaches exactly one parameter set, equal to the fixed two-entry shell
dictionary built from the two external defaults, regardless of job_type,
job_class, nodes, tasks_per_node and workload_key, and changes nothing
else on the node (repeats untouched). -/
theorem set_runtime_shell (node : Node) (c : RuntimeConfig)
    (h : c.runtime_type = "shell") :
    set_runtime node c =
      Except.ok (Node.mk (node.parameters ++ [shell_job]) node.repeats) ∧
    shell_job =
      [("TAKLER_SHELL_JOB_CMD", PValue.str DEFAULT_TAKLER_SHELL_JOB_CMD),
       ("TAKLER_SHELL_KILL_CMD", PValue.str DEFAULT_TAKLER_SHELL_KILL_CMD)] := by
  refine ⟨?_, rfl⟩
  simp [set_runtime, h, add_parameter]

/-- C5 witness: a concrete shell config with every unrelated field set. -/
theorem set_runtime_shell_witness :
    set_runtime emptyNode
      (RuntimeConfig.mk "shell" "parallel" (some "fast") (some 4) (some 16) (some "acct1")) =
      Except.ok (Node.mk (emptyNode.parameters ++ [shell_job]) emptyNode.repeats) ∧
    shell_job =
      [("TAKLER_SHELL_JOB_CMD", PValue.str DEFAULT_TAKLER_SHELL_JOB_CMD),
       ("TAKLER_SHELL_KILL_CMD", PValue.str DEFAULT_TAKLER_SHELL_KILL_CMD)] :=
  set_runtime_shell emptyNode
    (RuntimeConfig.mk "shell" "parallel" (some "fast") (some 4) (some 16) (some "acct1")) rfl

/-- C4: a runtime_type outside shell/slurm, or a slurm job_type outside
serial/parallel, makes set_runtime fail with a ValueError whose message
names the unsupported value; the error result carries no node, so no
add_parameter call happened and the parameter store is untouched. -/
theorem set_runtime_unsupported (node : Node) (c : RuntimeConfig) :
    (c.runtime_type ≠ "shell" → c.runtime_type ≠ "slurm" →
      set_runtime node c = Except.error (PyError.valueError
        ("runtime type is not supported: " ++ c.runtime_type))) ∧
    (c.runtime_type = "slurm" → c.job_type ≠ "serial" → c.job_type ≠ "parallel" →
      set_runtime node c = Except.error (PyError.valueError
        ("job type for slurm is not supported: " ++ c.job_type))) := by
  constructor
  · intro h1 h2
    simp [set_runtime, h1, h2]
  · intro h1 h2 h3
    simp [set_runtime, h1, h2, h3]

/-- C4 witness: the spec example runtime_type = "shelll" (typo) fails with
the message naming the value, and an invalid slurm job_type fails too. -/
theorem set_runtime_unsupported_witness :
    set_runtime emptyNode (RuntimeConfig.mk "shelll" "serial" none none none none) =
      Except.error (PyError.valueError ("runtime type is not supported: " ++ "shelll")) ∧
    set_runtime emptyNode (RuntimeConfig.mk "slurm" "array" none none none none) =
      Except.error (PyError.valueError ("job type for slurm is not supported: " ++ "array")) :=
  ⟨(set_runtime_unsupported emptyNode
      (RuntimeConfig.mk "shelll" "serial" none none none none)).1
        (by decide) (by decide),
   (set_runtime_unsupported emptyNode
      (RuntimeConfig.mk "slurm" "array" none none none none)).2
        rfl (by decide) (by decide)⟩

/-- C1 evaluation at the failing input: for runtime_type = "slurm",
job_type = "serial", job_class = None, workload_key = None, the attached
parameter set carries PARTITION = None, not the default partition name
"serial": set_runtime forwards job_class = None explicitly, so the default
value "serial" of the slurm_serial_job signature never applies. -/
theorem set_runtime_serial_none_class_eval :
    set_runtime emptyNode (RuntimeConfig.mk "slurm" "serial" none none none none) =
      Except.ok (Node.mk
        [[("TAKLER_SHELL_JOB_CMD", PValue.str slurm_job_cmd),
          ("TAKLER_SHELL_KILL_CMD", PValue.str slurm_kill_cmd),
          ("PARTITION", PValue.null)]] []) := by
  simp [set_runtime, slurm_serial_job, optStr, add_parameter, emptyNode]

/-- C2 evaluation at the failing input: for runtime_type = "slurm",
job_type = "parallel", tasks_per_node = None, the attached parameter set
carries TASKS_PER_NODE = None, not the documented default 32: set_runtime
forwards tasks_per_node = None explicitly, bypassing the default 32 of the
slurm_parallel_job signature (the default "normal" for class_name is
bypassed the same way). -/
theorem set_runtime_parallel_none_tasks_eval :
    set_runtime emptyNode (RuntimeConfig.mk "slurm" "parallel" none (some 4) none none) =
      Except.ok (Node.mk
        [[("TAKLER_SHELL_JOB_CMD", PValue.str slurm_job_cmd),
          ("TAKLER_SHELL_KILL_CMD", PValue.str slurm_kill_cmd),
          ("PARTITION", PValue.null),
          ("NODES", PValue.int 4),
          ("TASKS_PER_NODE", PValue.null)]] []) := by
  simp [set_runtime, slurm_parallel_job, optStr, optInt, add_parameter, emptyNode]

/-- C6: slurm_serial_job returns exactly the three fixed entries with
PARTITION carrying class_name, extended with WCKEY carrying workload_key
if and only if workload_key is not None; being a pure function of its
arguments it has no side effects. -/
theorem slurm_serial_job_spec (class_name : Option String)
    (workload_key : Option String) :
    slurm_serial_job class_name workload_key =
      [("TAKLER_SHELL_JOB_CMD", PValue.str "sbatch {{ TAKLER_JOB }}"),
       ("TAKLER_SHELL_KILL_CMD", PValue.str "scancel {{ TAKLER_RID }}"),
       ("PARTITION", optStr class_name)] ++
      (match workload_key with
       | some w => [("WCKEY", PValue.str w)]
       | none => []) := by
  cases workload_key <;> rfl

/-- C7: with scheduling_type = "RepeatDate" and both dates present,
set_scheduling attaches exactly one RepeatDate built from the variable
name and the two dates formatted as fixed-width zero-padded YYYYMMDD
strings, and changes nothing else on the node; the format always has
eight characters, and the spec examples 2024-01-01 and 2024-01-31 render
as "20240101" and "20240131". -/
theorem set_scheduling_repeat_date (node : Node) (c : SchedulingConfig)
    (name : String) (sd ed : Date)
    (h1 : c.scheduling_type = "RepeatDate")
    (h2 : c.start_date = some sd) (h3 : c.end_date = some ed) :
    set_scheduling node c name =
      Except.ok (Node.mk node.parameters
        (node.repeats ++ [RepeatDate.mk name (strftimeYmd sd) (strftimeYmd ed)])) ∧
    (strftimeYmd sd).length = 8 ∧ (strftimeYmd ed).length = 8 ∧
    strftimeYmd (Date.mk 2024 1 1) = "20240101" ∧
    strftimeYmd (Date.mk 2024 1 31) = "20240131" := by
  refine ⟨?_, rfl, rfl, by decide, by decide⟩
  simp [set_scheduling, h1, h2, h3, add_repeat]

/-- C7 witness: the spec example dates with the default variable name. -/
theorem set_scheduling_repeat_date_witness :
    set_scheduling emptyNode
      (SchedulingConfig.mk "RepeatDate" (some (Date.mk 2024 1 1)) (some (Date.mk 2024 1 31)))
      "TAKLER_DATE" =
      Except.ok (Node.mk emptyNode.parameters
        (emptyNode.repeats ++ [RepeatDate.mk "TAKLER_DATE"
          (strftimeYmd (Date.mk 2024 1 1)) (strftimeYmd (Date.mk 2024 1 31))])) ∧
    (strftimeYmd (Date.mk 2024 1 1)).length = 8 ∧
    (strftimeYmd (Date.mk 2024 1 31)).length = 8 ∧
    strftimeYmd (Date.mk 2024 1 1) = "20240101" ∧
    strftimeYmd (Date.mk 2024 1 31) = "20240131" :=
  set_scheduling_repeat_date emptyNode
    (SchedulingConfig.mk "RepeatDate" (some (Date.mk 2024 1 1)) (some (Date.mk 2024 1 31)))
    "TAKLER_DATE" (Date.mk 2024 1 1) (Date.mk 2024 1 31) rfl rfl rfl

/-- C8: scheduling_type = "RepeatDay" always fails with the
not-implemented ValueError, and any scheduling_type outside RepeatDate and
RepeatDay fails with a ValueError naming the unsupported value; the error
result carries no node, so add_repeat is never reached. -/
theorem set_scheduling_unsupported (node : Node) (c : SchedulingConfig)
    (name : String) :
    (c.scheduling_type = "RepeatDay" →
      set_scheduling node c name =
        Except.error (PyError.valueError "RepeatDay is not implemented")) ∧
    (c.scheduling_type ≠ "RepeatDate" → c.scheduling_type ≠ "RepeatDay" →
      set_scheduling node c name =
        Except.error (PyError.valueError
          ("scheduling type is not supported: " ++ c.scheduling_type))) := by
  constructor
  · intro h1
    simp [set_scheduling, h1]
  · intro h1 h2
    simp [set_scheduling, h1, h2]

/-- C8 witness: concrete RepeatDay and typo configs. -/
theorem set_scheduling_unsupported_witness :
    set_scheduling emptyNode
      (SchedulingConfig.mk "RepeatDay" (some (Date.mk 2024 1 1)) (some (Date.mk 2024 1 31)))
      "TAKLER_DATE" =
      Except.error (PyError.valueError "RepeatDay is not implemented") ∧
    set_scheduling emptyNode (SchedulingConfig.mk "RepeatMonth" none none) "TAKLER_DATE" =
      Except.error (PyError.valueError
        ("scheduling type is not supported: " ++ "RepeatMonth")) :=
  ⟨(set_scheduling_unsupported emptyNode
      (SchedulingConfig.mk "RepeatDay" (some (Date.mk 2024 1 1)) (some (Date.mk 2024 1 31)))
      "TAKLER_DATE").1 rfl,
   (set_scheduling_unsupported emptyNode
      (SchedulingConfig.mk "RepeatMonth" none none) "TAKLER_DATE").2
        (by decide) (by decide)⟩

/-- C9: load_module_from_file_path ignores its module_name argument; two
calls with the same file path and registry but different names return the
same module and produce the same registry, the returned module is built
from the file content, and the registry afterwards binds the fixed name
"suite_config" to that module, overwriting whatever binding the incoming
registry held. -/
theorem load_module_ignores_module_name (fileSystem : String → String)
    (n1 n2 : String) (file_path : String) (sys_modules : ModuleRegistry) :
    load_module_from_file_path fileSystem n1 file_path sys_modules =
      load_module_from_file_path fileSystem n2 file_path sys_modules ∧
    (load_module_from_file_path fileSystem n1 file_path sys_modules).1 =
      ModuleType.mk (fileSystem file_path) ∧
    registryGet (load_module_from_file_path fileSystem n1 file_path sys_modules).2
      "suite_config" = some (ModuleType.mk (fileSystem file_path)) := by
  refine ⟨rfl, rfl, ?_⟩
  simp [load_module_from_file_path, registrySet, registryGet]

/-- A string option injects to the null value exactly when it is None. -/
theorem optStr_eq_null (o : Option String) : optStr o = PValue.null ↔ o = none := by
  cases o <;> simp [optStr]

/-- An integer option injects to the null value exactly when it is None. -/
theorem optInt_eq_null (o : Option Int) : optInt o = PValue.null ↔ o = none := by
  cases o <;> simp [optInt]

/-- C3 counterexample: for the valid config runtime_type = "slurm",
job_type = "serial", job_class = None, workload_key = "acct1", the
parameter set attached by set_runtime contains the key PARTITION with a
null value, so not every emitted key has a non-null value. -/
theorem set_runtime_null_partition_counterexample :
    set_runtime emptyNode (RuntimeConfig.mk "slurm" "serial" none none none (some "acct1")) =
      Except.ok (Node.mk
        [[("TAKLER_SHELL_JOB_CMD", PValue.str slurm_job_cmd),
          ("TAKLER_SHELL_KILL_CMD", PValue.str slurm_kill_cmd),
          ("PARTITION", PValue.null),
          ("WCKEY", PValue.str "acct1")]] []) ∧
    ("PARTITION", PValue.null) ∈ slurm_serial_job none (some "acct1") := by
  constructor
  · simp [set_runtime, slurm_serial_job, optStr, add_parameter, emptyNode]
  · simp [slurm_serial_job, optStr]

/-- C3 amended: every successful set_runtime call attaches exactly one
parameter set and touches nothing else; in that set the two command keys
TAKLER_SHELL_JOB_CMD and TAKLER_SHELL_KILL_CMD are always present with
string (hence non-null) values, WCKEY is present iff runtime_type is
"slurm" and workload_key is non-null (and then carries exactly the
workload_key string), PARTITION is emitted unconditionally in both slurm
branches with the raw job_class value and is null exactly when job_class
is None, NODES and TASKS_PER_NODE are emitted unconditionally in the
parallel branch with the raw nodes / tasks_per_node values and are null
exactly when the field is None, and a null value occurs at no key other
than those three. -/
theorem set_runtime_param_nullness (node : Node) (c : RuntimeConfig) (r : Node)
    (h : set_runtime node c = Except.ok r) :
    ∃ p : ParamSet,
      r = Node.mk (node.parameters ++ [p]) node.repeats ∧
      (∃ s, ("TAKLER_SHELL_JOB_CMD", PValue.str s) ∈ p) ∧
      (∃ s, ("TAKLER_SHELL_KILL_CMD", PValue.str s) ∈ p) ∧
      ((∃ v, ("WCKEY", v) ∈ p) ↔ c.runtime_type = "slurm" ∧ c.workload_key ≠ none) ∧
      (∀ v, ("WCKEY", v) ∈ p → ∃ s, v = PValue.str s ∧ c.workload_key = some s) ∧
      (c.runtime_type = "slurm" →
        ("PARTITION", optStr c.job_class) ∈ p ∧
        (("PARTITION", PValue.null) ∈ p ↔ c.job_class = none)) ∧
      (c.runtime_type = "slurm" → c.job_type = "parallel" →
        ("NODES", optInt c.nodes) ∈ p ∧
        ("TASKS_PER_NODE", optInt c.tasks_per_node) ∈ p ∧
        (("NODES", PValue.null) ∈ p ↔ c.nodes = none) ∧
        (("TASKS_PER_NODE", PValue.null) ∈ p ↔ c.tasks_per_node = none)) ∧
      (∀ kv : String × PValue, kv ∈ p → kv.2 = PValue.null →
        (kv.1 = "PARTITION" ∧ c.job_class = none) ∨
        (kv.1 = "NODES" ∧ c.nodes = none) ∨
        (kv.1 = "TASKS_PER_NODE" ∧ c.tasks_per_node = none)) := by
  unfold set_runtime at h
  by_cases h1 : c.runtime_type = "shell"
  · simp [h1] at h
    refine ⟨shell_job, by rw [← h]; rfl, ?_, ?_, ?_, ?_, ?_, ?_, ?_⟩
    · exact ⟨DEFAULT_TAKLER_SHELL_JOB_CMD, by simp [shell_job]⟩
    · exact ⟨DEFAULT_TAKLER_SHELL_KILL_CMD, by simp [shell_job]⟩
    · simp [shell_job, h1]
    · intro v hv
      simp [shell_job] at hv
    · intro hs
      rw [h1] at hs
      exact absurd hs (by decide)
    · intro hs _
      rw [h1] at hs
      exact absurd hs (by decide)
    · intro kv hkv hnull
      simp [shell_job] at hkv
      rcases hkv with hkv | hkv <;> subst hkv <;> simp at hnull
  · by_cases h2 : c.runtime_type = "slurm"
    · by_cases h3 : c.job_type = "serial"
      · simp [h1, h2, h3] at h
        refine ⟨slurm_serial_job c.job_class c.workload_key,
          by rw [← h]; rfl, ?_, ?_, ?_, ?_, ?_, ?_, ?_⟩
        · exact ⟨slurm_job_cmd, by cases c.workload_key <;> simp [slurm_serial_job]⟩
        · exact ⟨slurm_kill_cmd, by cases c.workload_key <;> simp [slurm_serial_job]⟩
        · cases hw : c.workload_key <;> simp [slurm_serial_job, hw, h2]
        · intro v hv
          cases hw : c.workload_key <;> simp [slurm_serial_job, hw] at hv
          exact ⟨_, hv, rfl⟩
        · intro _
          cases hj : c.job_class <;> cases hw : c.workload_key <;>
            simp [slurm_serial_job, hj, hw, optStr]
        · intro _ hp
          rw [h3] at hp
          exact absurd hp (by decide)
        · intro kv hkv hnull
          cases hw : c.workload_key <;> simp [slurm_serial_job, hw] at hkv <;>
            [rcases hkv with hkv | hkv | hkv;
             rcases hkv with hkv | hkv | hkv | hkv] <;>
            subst hkv <;> simp_all [optStr_eq_null]
      · by_cases h4 : c.job_type = "parallel"
        · simp [h1, h2, h3, h4] at h
          refine ⟨slurm_parallel_job c.nodes c.tasks_per_node c.job_class c.workload_key,
            by rw [← h]; rfl, ?_, ?_, ?_, ?_, ?_, ?_, ?_⟩
          · exact ⟨slurm_job_cmd, by cases c.workload_key <;> simp [slurm_parallel_job]⟩
          · exact ⟨slurm_kill_cmd, by cases c.workload_key <;> simp [slurm_parallel_job]⟩
          · cases hw : c.workload_key <;> simp [slurm_parallel_job, hw, h2]
          · intro v hv
            cases hw : c.workload_key <;> simp [slurm_parallel_job, hw] at hv
            exact ⟨_, hv, rfl⟩
          · intro _
            cases hj : c.job_class <;> cases hw : c.workload_key <;>
              simp [slurm_parallel_job, hj, hw, optStr]
          · intro _ _
            refine ⟨?_, ?_, ?_, ?_⟩ <;>
              cases hn : c.nodes <;> cases ht : c.tasks_per_node <;>
                cases hw : c.workload_key <;>
                  simp [slurm_parallel_job, hn, ht, hw, optStr, optInt]
          · intro kv hkv hnull
            cases hw : c.workload_key <;> simp [slurm_parallel_job, hw] at hkv <;>
              [rcases hkv with hkv | hkv | hkv | hkv | hkv;
               rcases hkv with hkv | hkv | hkv | hkv | hkv | hkv] <;>
              subst hkv <;> simp_all [optStr_eq_null, optInt_eq_null]
        · simp [h1, h2, h3, h4] at h
    · simp [h1, h2] at h

/-- C3 amended witness: the amended property instantiated at a concrete
parallel config with tasks_per_node = None and workload_key = "acct2". -/
theorem set_runtime_param_nullness_witness :
    ∃ p : ParamSet,
      add_parameter emptyNode (slurm_parallel_job (some 4) none (some "normal") (some "acct2")) =
        Node.mk (emptyNode.parameters ++ [p]) emptyNode.repeats ∧
      (∃ s, ("TAKLER_SHELL_JOB_CMD", PValue.str s) ∈ p) ∧
      (∃ s, ("TAKLER_SHELL_KILL_CMD", PValue.str s) ∈ p) ∧
      ((∃ v, ("WCKEY", v) ∈ p) ↔ ("slurm" : String) = "slurm" ∧ (some "acct2" : Option String) ≠ none) ∧
      (∀ v, ("WCKEY", v) ∈ p → ∃ s, v = PValue.str s ∧ (some "acct2" : Option String) = some s) ∧
      (("slurm" : String) = "slurm" →
        ("PARTITION", optStr (some "normal")) ∈ p ∧
        (("PARTITION", PValue.null) ∈ p ↔ (some "normal" : Option String) = none)) ∧
      (("slurm" : String) = "slurm" → ("parallel" : String) = "parallel" →
        ("NODES", optInt (some 4)) ∈ p ∧
        ("TASKS_PER_NODE", optInt none) ∈ p ∧
        (("NODES", PValue.null) ∈ p ↔ (some 4 : Option Int) = none) ∧
        (("TASKS_PER_NODE", PValue.null) ∈ p ↔ (none : Option Int) = none)) ∧
      (∀ kv : String × PValue, kv ∈ p → kv.2 = PValue.null →
        (kv.1 = "PARTITION" ∧ (some "normal" : Option String) = none) ∨
        (kv.1 = "NODES" ∧ (some 4 : Option Int) = none) ∨
        (kv.1 = "TASKS_PER_NODE" ∧ (none : Option Int) = none)) :=
  set_runtime_param_nullness emptyNode
    (RuntimeConfig.mk "slurm" "parallel" (some "normal") (some 4) none (some "acct2"))
    (add_parameter emptyNode (slurm_parallel_job (some 4) none (some "normal") (some "acct2")))
    (by simp [set_runtime])

/-- C10: a SchedulingConfig with scheduling_type = "RepeatDate" is
constructible with start_date or end_date equal to None, and on such a
config set_scheduling fails with an AttributeError (strftime on None)
rather than an invalid-configuration ValueError, before any add_repeat
call: the error result carries no node. -/
theorem set_scheduling_none_date (node : Node) (c : SchedulingConfig)
    (name : String) (h1 : c.scheduling_type = "RepeatDate")
    (h2 : c.start_date = none ∨ c.end_date = none) :
    set_scheduling node c name =
      Except.error (PyError.attributeError
        "NoneType object has no attribute strftime") := by
  rcases h2 with h2 | h2
  · simp [set_scheduling, h1, h2]
  · cases h3 : c.start_date <;> simp [set_scheduling, h1, h2, h3]

/-- C10 witness: a concrete RepeatDate config with no start date. -/
theorem set_scheduling_none_date_witness :
    set_scheduling emptyNode
      (SchedulingConfig.mk "RepeatDate" none (some (Date.mk 2024 1 31))) "TAKLER_DATE" =
      Except.error (PyError.attributeError
        "NoneType object has no attribute strftime") :=
  set_scheduling_none_date emptyNode
    (SchedulingConfig.mk "RepeatDate" none (some (Date.mk 2024 1 31)))
    "TAKLER_DATE" rfl (Or.inl rfl)

end CemcTaklerUtil
